import Mathlib

/-!
Shallow embedding of `rflib/rf_notes_to_stix2.py` (Recorded Future analyst-note
to STIX2 conversion): the entity classifier/dispatcher, the indicator and
descriptor builders, the relationship inference pass and the report assembly.

Python strings are modelled as `String` (or `List Char` where individual
character replacement matters); `None`-able fields as `Option`; raised
`ConversionError`s as `Except String`.  The `pycti`/`stix2` id generators
derive deterministic UUIDs from their inputs; they are modelled here as
injective tag-string constructions, which preserves exactly the property the
code relies on (ids are content-addressed and reproducible).
-/

/-- The single-quote character (codepoint 39), used in STIX patterns. -/
def sqC : Char := Char.ofNat 39

/-- The backslash character (codepoint 92). -/
def bslC : Char := Char.ofNat 92

/-- A produced STIX object, flattened over the fields the conversion code
reads or writes: SDOs, SCOs and SROs all become one record, with `none`
standing for an attribute the object does not carry. -/
structure SObj where
  id : String
  type : String
  name : String := ""
  created_by_ref : Option String := none
  identity_class : Option String := none
  source_ref : Option String := none
  target_ref : Option String := none
  relationship_type : Option String := none
  pattern : Option String := none
  pattern_type : Option String := none
  x_opencti_score : Option Int := none
  x_opencti_location_type : Option String := none
  object_refs : List String := []
deriving DecidableEq, Repr

/-- Model of `pycti.Identity.generate_id(name, identity_class)`. -/
def pycti_identity_generate_id (name cls : String) : String :=
  "identity--" ++ cls ++ "--" ++ name

/-- Model of `pycti.Indicator.generate_id(pattern)`. -/
def pycti_indicator_generate_id (pat : String) : String :=
  "indicator--" ++ pat

/-- Model of `pycti.StixCoreRelationship.generate_id(relation, source, target)`. -/
def pycti_relationship_generate_id (relation src tgt : String) : String :=
  "relationship--" ++ relation ++ "--" ++ src ++ "--" ++ tgt

/-- Model of `pycti.Report.generate_id(name, published)`. -/
def pycti_report_generate_id (name published : String) : String :=
  "report--" ++ name ++ "--" ++ published

/-- Python single-character `str.replace(c, r)` at the character-list level:
every occurrence of `c` is replaced by the character list `r`. -/
def replaceChar (c : Char) (r : List Char) : List Char → List Char
  | [] => []
  | x :: xs => (if x = c then r else [x]) ++ replaceChar c r xs

/-- Python `str.split(sep)` on a single-character separator. -/
def pySplit (sep : Char) : List Char → List (List Char)
  | [] => [[]]
  | c :: rest =>
    let r := pySplit sep rest
    if c = sep then [] :: r else (c :: r.headD []) :: r.tail

namespace FileHash

/-- The `ConversionError` message raised for an unsupported hash length. -/
def hash_error_msg (name : String) : String :=
  "Could not determine hash type for " ++ name ++
    ". Only MD5, SHA1 and SHA256 hashes are supported"

/-- Source `FileHash._determine_algorithm`: the hash algorithm follows from the
length of the string alone; any other length raises `ConversionError`. -/
def determine_algorithm (name : String) : Except String String :=
  if name.length = 64 then Except.ok "SHA-256"
  else if name.length = 40 then Except.ok "SHA-1"
  else if name.length = 32 then Except.ok "MD5"
  else Except.error (hash_error_msg name)

end FileHash

/-- Which of the four indicator builders a value goes through; a `hash` carries
the algorithm determined at construction time. -/
inductive IndKind
  | ip
  | domain
  | url
  | hash (alg : String)
deriving DecidableEq, Repr

namespace URL

/-- Source `URL._create_pattern`: escape backslashes first, then single quotes, and
embed the escaped value in the url pattern. -/
def create_pattern (name : List Char) : List Char :=
  let ioc := replaceChar sqC [bslC, sqC] (replaceChar bslC [bslC, bslC] name)
  ("[url:value = ".toList ++ [sqC]) ++ ioc ++ [sqC, ']']

end URL

/-- A string holding the single quote, for building the other patterns. -/
def sqs : String := String.mk [sqC]

/-- The category-specific STIX pattern of each indicator builder
(`IPAddress`, `Domain`, `URL`, `FileHash` `_create_pattern`). -/
def indicator_pattern (k : IndKind) (name : String) : String :=
  match k with
  | .ip => "[ipv4-addr:value = " ++ sqs ++ name ++ sqs ++ "]"
  | .domain => "[domain-name:value = " ++ sqs ++ name ++ sqs ++ "]"
  | .url => String.mk (URL.create_pattern name.toList)
  | .hash alg => "[file:hashes." ++ sqs ++ alg ++ sqs ++ " = " ++ sqs ++ name ++ sqs ++ "]"

namespace Indicator

/-- Source `Indicator._create_indicator`: the pattern-based indicator object, carrying
the author reference and the optional risk score. -/
def create_indicator (k : IndKind) (name : String) (author : SObj)
    (risk_score : Option Int) : SObj :=
  { id := pycti_indicator_generate_id (indicator_pattern k name)
    type := "indicator"
    name := name
    pattern := some (indicator_pattern k name)
    pattern_type := some "stix"
    created_by_ref := some author.id
    x_opencti_score := risk_score }

/-- Source `_create_obs` of each indicator subclass: the typed observable built from
the same raw value.  Observables carry no `created_by_ref`. -/
def create_obs (k : IndKind) (name : String) : SObj :=
  match k with
  | .ip => { id := "ipv4-addr--" ++ name, type := "ipv4-addr", name := name }
  | .domain => { id := "domain-name--" ++ name, type := "domain-name", name := name }
  | .url => { id := "url--" ++ name, type := "url", name := name }
  | .hash alg => { id := "file--" ++ alg ++ "--" ++ name, type := "file", name := name }

/-- Source `Indicator._create_rel`: the based-on relationship from the indicator to
the observable. -/
def create_rel_obj (author ind obs : SObj) : SObj :=
  { id := pycti_relationship_generate_id "based-on" ind.id obs.id
    type := "relationship"
    relationship_type := some "based-on"
    source_ref := some ind.id
    target_ref := some obs.id
    created_by_ref := some author.id }

end Indicator

/-- The three objects an indicator builder emits, in the order
`to_stix_objects` returns them. -/
def indicator_triple (k : IndKind) (name : String) (author : SObj)
    (risk_score : Option Int) : List SObj :=
  let ind := Indicator.create_indicator k name author risk_score
  let obs := Indicator.create_obs k name
  [ind, obs, Indicator.create_rel_obj author ind obs]

/-- The mutable state of one `Indicator` builder instance: the three cached
members are `none` until `create_stix_objects` fills them. -/
structure IndicatorState where
  kind : IndKind
  name : String
  author : SObj
  stix_indicator : Option SObj := none
  stix_observable : Option SObj := none
  stix_relationship : Option SObj := none
  risk_score : Option Int := none
deriving DecidableEq, Repr

namespace Indicator

/-- Source `Indicator.create_stix_objects`: build all three triple members together. -/
def create_stix_objects (s : IndicatorState) : IndicatorState :=
  let ind := create_indicator s.kind s.name s.author s.risk_score
  let obs := create_obs s.kind s.name
  { s with
    stix_indicator := some ind
    stix_observable := some obs
    stix_relationship := some (create_rel_obj s.author ind obs) }

/-- Source `Indicator.to_stix_objects`: rebuild only when some member is still
unbuilt (Python truthiness of the three cached fields), then return the
cached triple together with the updated instance state. -/
def to_stix_objects (s : IndicatorState) : List (Option SObj) × IndicatorState :=
  let s2 :=
    if s.stix_indicator.isSome && s.stix_observable.isSome &&
        s.stix_relationship.isSome then s
    else create_stix_objects s
  ([s2.stix_indicator, s2.stix_observable, s2.stix_relationship], s2)

end Indicator

namespace TTP

/-- Source `TTP.create_stix_objects`: a MITRE T code becomes an attack pattern. -/
def create_stix_objects (name : String) (author : SObj) : SObj :=
  { id := "attack-pattern--" ++ name
    type := "attack-pattern"
    name := name
    created_by_ref := some author.id }

end TTP

namespace Identity

/-- Source `Identity.type_to_class`: the category to identity-class table; a lookup
of an unmapped category raises (a Python `KeyError`), modelled as `none`. -/
def type_to_class (t : String) : Option String :=
  if t = "Company" then some "organization"
  else if t = "Organization" then some "organization"
  else if t = "Person" then some "individual"
  else if t = "Industry" then some "class"
  else none

/-- Source `Identity.create_stix_objects`: one identity object whose class comes from
the category table; an unmapped category is a lookup error. -/
def create_stix_objects (name t : String) (author : SObj) : Except String SObj :=
  match type_to_class t with
  | none => Except.error ("KeyError: " ++ t)
  | some cls =>
    Except.ok
      { id := pycti_identity_generate_id name cls
        type := "identity"
        name := name
        identity_class := some cls
        created_by_ref := some author.id }

end Identity

namespace ThreatActor

/-- Source `ThreatActor.create_stix_objects`. -/
def create_stix_objects (name : String) (author : SObj) : SObj :=
  { id := "threat-actor--" ++ name
    type := "threat-actor"
    name := name
    created_by_ref := some author.id }

end ThreatActor

namespace IntrusionSet

/-- Source `IntrusionSet.create_stix_objects`. -/
def create_stix_objects (name : String) (author : SObj) : SObj :=
  { id := "intrusion-set--" ++ name
    type := "intrusion-set"
    name := name
    created_by_ref := some author.id }

end IntrusionSet

namespace Malware

/-- Source `Malware.create_stix_objects`. -/
def create_stix_objects (name : String) (author : SObj) : SObj :=
  { id := "malware--" ++ name
    type := "malware"
    name := name
    created_by_ref := some author.id }

end Malware

namespace Vulnerability

/-- Source `Vulnerability.create_stix_objects`. -/
def create_stix_objects (name : String) (author : SObj) : SObj :=
  { id := "vulnerability--" ++ name
    type := "vulnerability"
    name := name
    created_by_ref := some author.id }

end Vulnerability

namespace Software

/-- Source `Software.create_stix_objects`: the software observable is built from the
name alone; the constructor discards the author, so no `created_by_ref`. -/
def create_stix_objects (name : String) : SObj :=
  { id := "software--" ++ name
    type := "software"
    name := name }

end Software

namespace Location

/-- Source `Location.rf_type_to_stix`: the location category table consulted at
construction time. -/
def rf_type_to_stix (t : String) : Option String :=
  if t = "Country" then some "Country"
  else if t = "City" then some "City"
  else if t = "ProvinceOrState" then some "Administrative-Area"
  else none

/-- Source `Location.create_stix_objects`: built from name and mapped location type
only; the constructor discards the author, so no `created_by_ref`. -/
def create_stix_objects (name t : String) : Except String SObj :=
  match rf_type_to_stix t with
  | none => Except.error ("KeyError: " ++ t)
  | some loc =>
    Except.ok
      { id := "location--" ++ name
        type := "location"
        name := name
        x_opencti_location_type := some loc }

end Location

namespace Campaign

/-- Source `Campaign.create_stix_objects`: built from the name alone; the constructor
discards the author, so no `created_by_ref`. -/
def create_stix_objects (name : String) : SObj :=
  { id := "campaign--" ++ name
    type := "campaign"
    name := name }

end Campaign

/-- The dot character, the separator `DetectionRule.__init__` splits on. -/
def dotC : Char := Char.ofNat 46

/-- The state of a constructed `DetectionRule` builder. -/
structure DetectionRuleState where
  name : String
  type : String
  content : String
  author : SObj
deriving DecidableEq, Repr

namespace DetectionRule

/-- The display name `DetectionRule.__init__` computes:
`name.split(".")[0]`. -/
def display_name (filename : List Char) : List Char :=
  (pySplit dotC filename).headD []

/-- Source `DetectionRule.__init__`: store the split name, the language and the rule
text, and raise `ConversionError` on a language outside yara/snort/sigma. -/
def init (name t content : String) (author : SObj) : Except String DetectionRuleState :=
  if t = "yara" || t = "snort" || t = "sigma" then
    Except.ok
      { name := String.mk (display_name name.toList)
        type := t
        content := content
        author := author }
  else Except.error ("Detection rule of type " ++ t ++ " is not supported")

/-- Source `DetectionRule.create_stix_objects`: the rule text becomes the pattern
verbatim, the language the pattern type. -/
def create_stix_objects (s : DetectionRuleState) : SObj :=
  { id := pycti_indicator_generate_id s.content
    type := "indicator"
    name := s.name
    pattern := some s.content
    pattern_type := some s.type
    created_by_ref := some s.author.id }

end DetectionRule

/-- The builder class a dispatched category maps to. -/
inductive Builder
  | ipaddress
  | domain
  | url
  | filehash
  | ttp
  | identity
  | malware
  | vulnerability
  | software
  | location
  | campaign
deriving DecidableEq, Repr

/-- Source `ENTITY_TYPE_MAPPER`: Recorded Future category to builder class. -/
def ENTITY_TYPE_MAPPER (t : String) : Option Builder :=
  if t = "IpAddress" then some .ipaddress
  else if t = "InternetDomainName" then some .domain
  else if t = "URL" then some .url
  else if t = "Hash" then some .filehash
  else if t = "MitreAttackIdentifier" then some .ttp
  else if t = "Company" then some .identity
  else if t = "Person" then some .identity
  else if t = "Organization" then some .identity
  else if t = "Malware" then some .malware
  else if t = "CyberVulnerability" then some .vulnerability
  else if t = "Product" then some .software
  else if t = "Country" then some .location
  else if t = "City" then some .location
  else if t = "ProvinceOrState" then some .location
  else if t = "Industry" then some .identity
  else if t = "Operation" then some .campaign
  else none

/-- Source `INDICATOR_TYPE_URL_MAPPER`: category to risk-score lookup key. -/
def INDICATOR_TYPE_URL_MAPPER (t : String) : Option String :=
  if t = "IpAddress" then some "ip"
  else if t = "InternetDomainName" then some "domain"
  else if t = "URL" then some "url"
  else if t = "Hash" then some "hash"
  else none

/-- Constructing an indicator builder: `FileHash.__init__` determines the
algorithm (and may raise) before anything else happens to the entity; the
other builders construct without failing.  `none` means the builder is not an
indicator builder. -/
def indicator_kind_of (b : Builder) (name : String) : Except String (Option IndKind) :=
  match b with
  | .ipaddress => Except.ok (some .ip)
  | .domain => Except.ok (some .domain)
  | .url => Except.ok (some .url)
  | .filehash => (FileHash.determine_algorithm name).map (fun alg => some (.hash alg))
  | _ => Except.ok none

/-- The objects a non-indicator builder's `to_stix_objects` returns on a
fresh instance. -/
def build_descriptor (b : Builder) (name t : String) (author : SObj) :
    Except String (List SObj) :=
  match b with
  | .ttp => Except.ok [TTP.create_stix_objects name author]
  | .identity => (Identity.create_stix_objects name t author).map (fun o => [o])
  | .malware => Except.ok [Malware.create_stix_objects name author]
  | .vulnerability => Except.ok [Vulnerability.create_stix_objects name author]
  | .software => Except.ok [Software.create_stix_objects name]
  | .location => (Location.create_stix_objects name t).map (fun o => [o])
  | .campaign => Except.ok [Campaign.create_stix_objects name]
  | _ => Except.ok []

/-- The session configuration flags read by `StixNote.from_json`
(`person_to_ta`, `ta_to_intrusion_set`, `risk_as_score`, `risk_threshold`). -/
structure Config where
  person_to_ta : Bool := false
  ta_to_intrusion_set : Bool := false
  risk_as_score : Bool := false
  risk_threshold : Option Int := none
deriving DecidableEq, Repr

/-- One entity of the note's `note_entities` list. -/
structure Entity where
  type : String
  name : String
  id : String
deriving DecidableEq, Repr

/-- Everything one iteration of the `from_json` entity loop does: objects
appended, external references appended, warnings and infos logged, and the
risk-score API calls made (in order). -/
structure EntityResult where
  objs : List SObj := []
  external_references : List (String × String) := []
  warnings : List String := []
  infos : List String := []
  fetches : List (String × String) := []
deriving DecidableEq, Repr

/-- Python truthiness of an optional number: `None` and `0` are falsy. -/
def optTruthy : Option Int → Bool
  | none => false
  | some v => v != 0

/-- The warning `from_json` logs for an entity with no registered builder. -/
def cannot_convert_warning (name t : String) : String :=
  "Cannot convert entity " ++ name ++ " to STIX2 because it is of type " ++ t

/-- The info `from_json` logs when a risk score is below the threshold. -/
def ignored_entity_info (name : String) : String :=
  "Ignoring entity " ++ name ++ " as its risk score is lower than the defined risk threshold"

/-- The tail of the indicator branch of the `from_json` loop, after gating:
set `rf_object.risk_score` when `risk_as_score` is configured (reusing the
gating fetch only when that score is truthy), then build the triple. -/
def finish_indicator (risk_as_score : Bool) (key name : String) (author : SObj)
    (get_risk_score : String → String → Int) (k : IndKind)
    (gate_score : Option Int) (fetches0 : List (String × String)) : EntityResult :=
  if risk_as_score then
    if optTruthy gate_score then
      { objs := indicator_triple k name author gate_score, fetches := fetches0 }
    else
      { objs := indicator_triple k name author (some (get_risk_score key name))
        fetches := fetches0 ++ [(key, name)] }
  else
    { objs := indicator_triple k name author none, fetches := fetches0 }

/-- One iteration of the `StixNote.from_json` entity loop: the dispatch
branches in source order, risk gating and scoring for the four indicator
categories, and the builder call.  `get_risk_score` stands for the
`rfapi.get_risk_score` collaborator; an uncaught `ConversionError` is an
`Except.error`. -/
def process_entity (cfg : Config) (tas : List String) (author : SObj)
    (get_risk_score : String → String → Int) (e : Entity) :
    Except String EntityResult :=
  if cfg.person_to_ta && (e.type == "Person") then
    Except.ok { objs := [ThreatActor.create_stix_objects e.name author] }
  else if tas.contains e.id then
    if cfg.ta_to_intrusion_set && (e.type != "Person") then
      Except.ok { objs := [IntrusionSet.create_stix_objects e.name author] }
    else
      Except.ok { objs := [ThreatActor.create_stix_objects e.name author] }
  else if e.type == "Source" then
    Except.ok { external_references := [(e.name, e.name)] }
  else
    match ENTITY_TYPE_MAPPER e.type with
    | none => Except.ok { warnings := [cannot_convert_warning e.name e.type] }
    | some b =>
      (indicator_kind_of b e.name).bind (fun k? =>
        match k? with
        | none => (build_descriptor b e.name e.type author).map (fun objs => { objs := objs })
        | some k =>
          let key := (INDICATOR_TYPE_URL_MAPPER e.type).getD ""
          if optTruthy cfg.risk_threshold then
            let score := get_risk_score key e.name
            if score < cfg.risk_threshold.getD 0 then
              Except.ok { infos := [ignored_entity_info e.name], fetches := [(key, e.name)] }
            else
              Except.ok (finish_indicator cfg.risk_as_score key e.name author
                get_risk_score k (some score) [(key, e.name)])
          else
            Except.ok (finish_indicator cfg.risk_as_score key e.name author
              get_risk_score k none []))

/-- Source `StixNote.report_type_mapper`: the fixed topic to report-type table. -/
def report_type_mapper (name : String) : Option String :=
  if name = "Actor Profile" then some "Threat-Actor"
  else if name = "Analyst On-Demand Report" then some "Threat-Report"
  else if name = "Cyber Threat Analysis" then some "Threat-Report"
  else if name = "Flash Report" then some "Threat-Report"
  else if name = "Geopolitical Flash Event" then some "Threat-Report"
  else if name = "Geopolitical Intelligence Summary" then some "Threat-Report"
  else if name = "Geopolitical Profile" then some "Threat-Actor"
  else if name = "Geopolitical Threat Forecast" then some "Threat-Actor"
  else if name = "Geopolitical Validated Event" then some "Observed-Data"
  else if name = "Hunting Package" then some "Attack-Pattern"
  else if name = "Indicator" then some "Indicator"
  else if name = "Informational" then some "Threat-Report"
  else if name = "Insikt Research Lead" then some "Intrusion-Set"
  else if name = "Malware/Tool Profile" then some "Malware"
  else if name = "Regular Vendor Vulnerability Disclosures" then some "Vulnerability"
  else if name = "Sigma Rule" then some "Attack-Pattern"
  else if name = "SNORT Rule" then some "Indicator"
  else if name = "Source Profile" then some "Observed-Data"
  else if name = "The Record by Recorded Future" then some "Threat-Report"
  else if name = "Threat Lead" then some "Threat-Actor"
  else if name = "TTP Instance" then some "Attack-Pattern"
  else if name = "Validated Intelligence Event" then some "Observed-Data"
  else if name = "Weekly Threat Landscape" then some "Threat-Report"
  else if name = "YARA Rule" then some "Indicator"
  else none

/-- The warning `_create_report_types` logs for an unmapped topic. -/
def reportTypeWarning (name : String) : String :=
  "Could not map a report type for type " ++ name

/-- The `_create_report_types` loop with its accumulated set (modelled as a
duplicate-free list in insertion order) and warning log. -/
def create_report_types_go (ret warns : List String) :
    List String → List String × List String
  | [] => (ret, warns)
  | name :: rest =>
    match report_type_mapper name with
    | none => create_report_types_go ret (warns ++ [reportTypeWarning name]) rest
    | some t =>
      create_report_types_go (if t ∈ ret then ret else ret ++ [t]) warns rest

/-- Source `StixNote._create_report_types`: returns the report types and the
warnings logged. -/
def create_report_types (topics : List String) : List String × List String :=
  create_report_types_go [] [] topics

/-- One `(entity, relation)` pair of a `RELATIONSHIPS_MAPPER` rule. -/
structure RelTarget where
  entity : String
  relation : String
deriving DecidableEq, Repr

/-- One `RELATIONSHIPS_MAPPER` rule: a source type and its target pairs. -/
structure RelRule where
  from_ : String
  to_ : List RelTarget
deriving DecidableEq, Repr

/-- Source `StixNote.RELATIONSHIPS_MAPPER`: the declarative adjacency table. -/
def RELATIONSHIPS_MAPPER : List RelRule :=
  [ { from_ := "threat-actor"
      to_ := [ { entity := "malware", relation := "uses" }
             , { entity := "vulnerability", relation := "targets" }
             , { entity := "attack-pattern", relation := "uses" }
             , { entity := "location", relation := "targets" }
             , { entity := "identity", relation := "targets" } ] }
  , { from_ := "intrusion-set"
      to_ := [ { entity := "malware", relation := "uses" }
             , { entity := "vulnerability", relation := "targets" }
             , { entity := "attack-pattern", relation := "uses" }
             , { entity := "location", relation := "targets" }
             , { entity := "identity", relation := "targets" } ] }
  , { from_ := "indicator"
      to_ := [ { entity := "malware", relation := "indicates" }
             , { entity := "threat-actor", relation := "indicates" }
             , { entity := "intrusion-set", relation := "indicates" } ] }
  , { from_ := "malware"
      to_ := [ { entity := "attack-pattern", relation := "uses" }
             , { entity := "location", relation := "targets" }
             , { entity := "identity", relation := "targets" } ] } ]

namespace StixNote

/-- Source `StixNote._create_rel`: one inferred relationship edge. -/
def create_rel (author : SObj) (from_id to_id relation : String) : SObj :=
  { id := pycti_relationship_generate_id relation from_id to_id
    type := "relationship"
    relationship_type := some relation
    source_ref := some from_id
    target_ref := some to_id
    created_by_ref := some author.id }

/-- The target pairs of the (at most one) adjacency rule whose `from`
matches a source type: `filter(...)[0]["to"]` guarded by the length check. -/
def possible_targets (t : String) : List RelTarget :=
  match RELATIONSHIPS_MAPPER.filter (fun rule => rule.from_ == t) with
  | [] => []
  | rule :: _ => rule.to_

/-- The edges `StixNote.create_relations` appends, computed over the object
list as it stands when the pass runs: object-list order outside, declaration
order inside, with the identity-class filter on identity targets. -/
def relationships (author : SObj) (objects : List SObj) : List SObj :=
  objects.flatMap (fun source_entity =>
    (possible_targets source_entity.type).flatMap (fun to_entity =>
      (objects.filter (fun obj => obj.type == to_entity.entity)).filterMap
        (fun target_entity =>
          if to_entity.entity != "identity" ||
              target_entity.identity_class == some "class" then
            some (create_rel author source_entity.id target_entity.id
              to_entity.relation)
          else none)))

end StixNote

/-- The session state of a `StixNote` at the point the bundle is assembled:
the authoring identity, the running object list and the report metadata. -/
structure NoteState where
  author : SObj
  name : String := ""
  text : String := ""
  published : String := ""
  labels : List String := []
  report_types : List String := []
  external_references : List (String × String) := []
  objects : List SObj := []
  tlp : Option SObj := none
deriving DecidableEq, Repr

namespace StixNote

/-- Source `StixNote._create_author`: the one Recorded Future authoring identity. -/
def create_author : SObj :=
  { id := pycti_identity_generate_id "Recorded Future" "organization"
    type := "identity"
    name := "Recorded Future"
    identity_class := some "organization" }

/-- Source `StixNote.create_relations`: append the inferred edges to the running
object list. -/
def create_relations (s : NoteState) : NoteState :=
  { s with objects := s.objects ++ relationships s.author s.objects }

/-- The report object `StixNote.to_stix_objects` builds: `object_refs` is
every running object's id plus the author's id. -/
def report (s : NoteState) : SObj :=
  { id := pycti_report_generate_id s.name s.published
    type := "report"
    name := s.name
    created_by_ref := some s.author.id
    object_refs := s.objects.map (fun o => o.id) ++ [s.author.id] }

/-- Source `StixNote.to_stix_objects`: the objects, the report, the author and the
session TLP marking (which is `None` for an unrecognized marking string). -/
def to_stix_objects (s : NoteState) : List (Option SObj) :=
  s.objects.map some ++ [some (report s), some s.author, s.tlp]

end StixNote

/-- Per-character escaping the URL pattern performs overall: a backslash
doubles, a single quote gains a leading backslash, everything else is kept.
Used to state that each original character is escaped exactly once, in its
original position, with no double-escaping. -/
def escChar (c : Char) : List Char :=
  if c = bslC then [bslC, bslC]
  else if c = sqC then [bslC, sqC]
  else [c]

/-- Concrete session author used by the closed witness statements. -/
def exAuthor : SObj := StixNote.create_author

/-- Concrete threat actor object for the witness statements. -/
def exThreatActor : SObj := ThreatActor.create_stix_objects "APT99" exAuthor

/-- Concrete class-type identity object for the witness statements. -/
def exIdentity : SObj :=
  { id := pycti_identity_generate_id "Retail" "class"
    type := "identity"
    name := "Retail"
    identity_class := some "class"
    created_by_ref := some exAuthor.id }

/-- Concrete note state (a threat actor and a class identity) for the witness
statements. -/
def exNote : NoteState :=
  { author := exAuthor, objects := [exThreatActor, exIdentity] }

/-- The one edge relationship inference emits on `exNote`. -/
def exEdge : SObj :=
  StixNote.create_rel exAuthor exThreatActor.id exIdentity.id "targets"

/-- Every target-pair list returned by `possible_targets` comes from an
adjacency rule whose `from` discriminator matches the queried type. -/
theorem mem_possible_targets {te : RelTarget} {t : String}
    (h : te ∈ StixNote.possible_targets t) :
    ∃ rule ∈ RELATIONSHIPS_MAPPER, rule.from_ = t ∧ te ∈ rule.to_ := by
  unfold StixNote.possible_targets at h
  cases hf : RELATIONSHIPS_MAPPER.filter (fun rule => rule.from_ == t) with
  | nil => rw [hf] at h; simp at h
  | cons r rs =>
    rw [hf] at h
    have hr : r ∈ RELATIONSHIPS_MAPPER.filter (fun rule => rule.from_ == t) := by
      rw [hf]; exact List.mem_cons_self r rs
    rw [List.mem_filter] at hr
    exact ⟨r, hr.1, by simpa using hr.2, h⟩

/-- Elimination form for membership in the inferred edge list: every emitted
edge comes from a source object, a matching rule target pair and a target
object of that type, and an identity target passed the class filter. -/
theorem mem_relationships_elim {author : SObj} {objects : List SObj} {e : SObj}
    (he : e ∈ StixNote.relationships author objects) :
    ∃ src ∈ objects, ∃ te ∈ StixNote.possible_targets src.type, ∃ tgt ∈ objects,
      tgt.type = te.entity ∧
      (te.entity = "identity" → tgt.identity_class = some "class") ∧
      e = StixNote.create_rel author src.id tgt.id te.relation := by
  unfold StixNote.relationships at he
  rw [List.mem_flatMap] at he
  obtain ⟨src, hsrc, he⟩ := he
  rw [List.mem_flatMap] at he
  obtain ⟨te, hte, he⟩ := he
  rw [List.mem_filterMap] at he
  obtain ⟨tgt, htgt, hfa⟩ := he
  rw [List.mem_filter] at htgt
  refine ⟨src, hsrc, te, hte, tgt, htgt.1, by simpa using htgt.2, ?_, ?_⟩
  · intro hid
    by_cases hcls : tgt.identity_class = some "class"
    · exact hcls
    · exfalso
      rw [if_neg] at hfa
      · exact Option.noConfusion hfa
      · simp [hid, hcls]
  · by_cases hcond : (te.entity != "identity" ||
        tgt.identity_class == some "class") = true
    · rw [if_pos hcond] at hfa
      exact (Option.some.injEq _ _ ▸ hfa).symm
    · rw [if_neg hcond] at hfa
      exact absurd hfa (Option.noConfusion)

/-- C6: for every object list, every edge `create_relations` emits comes from
a source object matched by an adjacency rule and a target object of the
declared target type, and whenever the target is an identity object its
`identity_class` is the literal "class" — so no organization- or
individual-class identity is ever an edge target, while the source side of
the emission condition never inspects an identity class. -/
theorem create_relations_identity_target_filter (author : SObj)
    (objects : List SObj) (e : SObj)
    (he : e ∈ StixNote.relationships author objects) :
    ∃ src ∈ objects, ∃ rule ∈ RELATIONSHIPS_MAPPER, ∃ te ∈ rule.to_,
      ∃ tgt ∈ objects,
        rule.from_ = src.type ∧ tgt.type = te.entity ∧
        e = StixNote.create_rel author src.id tgt.id te.relation ∧
        (tgt.type = "identity" → tgt.identity_class = some "class") := by
  obtain ⟨src, hsrc, te, hte, tgt, htgt, hty, hcls, heq⟩ := mem_relationships_elim he
  obtain ⟨rule, hrule, hfrom, hmem⟩ := mem_possible_targets hte
  exact ⟨src, hsrc, rule, hrule, te, hmem, tgt, htgt, hfrom, hty, heq,
    fun h => hcls (hty ▸ h)⟩

/-- Witness for C6: on a concrete list holding one threat actor and one
class-type identity, the one emitted edge instantiates the theorem. -/
theorem create_relations_identity_target_filter_witness :
    ∃ src ∈ exNote.objects, ∃ rule ∈ RELATIONSHIPS_MAPPER, ∃ te ∈ rule.to_,
      ∃ tgt ∈ exNote.objects,
        rule.from_ = src.type ∧ tgt.type = te.entity ∧
        exEdge = StixNote.create_rel exAuthor src.id tgt.id te.relation ∧
        (tgt.type = "identity" → tgt.identity_class = some "class") :=
  create_relations_identity_target_filter exAuthor exNote.objects exEdge
    (by decide)

/-- C1: after `create_relations` extends the object list, the report's
`object_refs` holds the id of every running object plus the author's id, and
in particular contains the source and target reference of every emitted
relationship edge (referential closure). -/
theorem report_referential_closure (s : NoteState) :
    (∀ o ∈ (StixNote.create_relations s).objects,
        o.id ∈ (StixNote.report (StixNote.create_relations s)).object_refs) ∧
    s.author.id ∈ (StixNote.report (StixNote.create_relations s)).object_refs ∧
    (∀ e ∈ StixNote.relationships s.author s.objects, ∀ x : String,
        e.source_ref = some x ∨ e.target_ref = some x →
        x ∈ (StixNote.report (StixNote.create_relations s)).object_refs) := by
  refine ⟨?_, ?_, ?_⟩
  · intro o ho
    simp only [StixNote.report, List.mem_append, List.mem_map]
    exact Or.inl ⟨o, ho, rfl⟩
  · simp [StixNote.report, StixNote.create_relations]
  · intro e he x hx
    obtain ⟨src, hsrc, te, hte, tgt, htgt, hty, hcls, heq⟩ :=
      mem_relationships_elim he
    subst heq
    simp only [StixNote.create_rel, Option.some.injEq] at hx
    simp only [StixNote.report, StixNote.create_relations, List.mem_append,
      List.mem_map]
    rcases hx with hx | hx
    · exact Or.inl ⟨src, Or.inl hsrc, hx⟩
    · exact Or.inl ⟨tgt, Or.inl htgt, hx⟩

/-- Counterexample to C2: the Software, Location and Campaign builders drop
the author at construction and build their objects without `created_by_ref`,
so those objects do not refer to the session's authoring identity. -/
theorem software_location_campaign_drop_author :
    (Software.create_stix_objects "Acme").created_by_ref = none ∧
    (Software.create_stix_objects "Acme").created_by_ref ≠ some exAuthor.id ∧
    (Location.create_stix_objects "France" "Country").map
      (fun o => o.created_by_ref) = Except.ok none ∧
    (Campaign.create_stix_objects "Operation Blue").created_by_ref = none :=
  ⟨rfl, by decide, rfl, rfl⟩

/-- C2 amended: every object built by the TTP, Identity, ThreatActor,
IntrusionSet, Malware, Vulnerability and DetectionRule builders, and the
indicator and based-on relationship of every indicator triple, carries
`created_by_ref` of the session author; the observable of a triple and the
objects built by the Software, Location and Campaign builders carry none. -/
theorem created_by_ref_by_builder (name t content : String) (author : SObj)
    (k : IndKind) (rs : Option Int) :
    (TTP.create_stix_objects name author).created_by_ref = some author.id ∧
    (∀ o, Identity.create_stix_objects name t author = Except.ok o →
        o.created_by_ref = some author.id) ∧
    (ThreatActor.create_stix_objects name author).created_by_ref = some author.id ∧
    (IntrusionSet.create_stix_objects name author).created_by_ref = some author.id ∧
    (Malware.create_stix_objects name author).created_by_ref = some author.id ∧
    (Vulnerability.create_stix_objects name author).created_by_ref = some author.id ∧
    (∀ s, DetectionRule.init name t content author = Except.ok s →
        (DetectionRule.create_stix_objects s).created_by_ref = some author.id) ∧
    (Indicator.create_indicator k name author rs).created_by_ref = some author.id ∧
    (Indicator.create_rel_obj author (Indicator.create_indicator k name author rs)
        (Indicator.create_obs k name)).created_by_ref = some author.id ∧
    (Indicator.create_obs k name).created_by_ref = none ∧
    (Software.create_stix_objects name).created_by_ref = none ∧
    (∀ o, Location.create_stix_objects name t = Except.ok o →
        o.created_by_ref = none) ∧
    (Campaign.create_stix_objects name).created_by_ref = none := by
  refine ⟨rfl, ?_, rfl, rfl, rfl, rfl, ?_, rfl, rfl, ?_, rfl, ?_, rfl⟩
  · intro o h
    unfold Identity.create_stix_objects at h
    cases htc : Identity.type_to_class t with
    | none => rw [htc] at h; exact absurd h (by simp)
    | some cls =>
      rw [htc] at h
      cases h
      rfl
  · intro s h
    unfold DetectionRule.init at h
    split at h
    · cases h
      rfl
    · exact absurd h (by simp)
  · cases k <;> rfl
  · intro o h
    unfold Location.create_stix_objects at h
    cases hl : Location.rf_type_to_stix t with
    | none => rw [hl] at h; exact absurd h (by simp)
    | some loc =>
      rw [hl] at h
      cases h
      rfl

/-- The head of a Python-style split is the prefix before the first
separator. -/
theorem pySplit_headD (sep : Char) (l : List Char) :
    (pySplit sep l).headD [] = l.takeWhile (fun c => c != sep) := by
  induction l with
  | nil => rfl
  | cons c rest ih =>
    by_cases hc : c = sep
    · simp [pySplit, hc]
    · have hp : (c != sep) = true := by simpa using hc
      have h1 : (pySplit sep (c :: rest)).headD [] =
          c :: (pySplit sep rest).headD [] := by
        simp [pySplit, hc]
      rw [h1, ih]
      simp [List.takeWhile_cons, hp]

/-- Counterexample to C3: a filename with two periods keeps only the segment
before the FIRST period — `a.b.c` becomes `a`, not `a.b` as the claim's
last-period reading would give. -/
theorem detection_rule_display_name_counterexample :
    String.mk (DetectionRule.display_name ("a.b.c".toList)) = "a" ∧
    ("a" : String) ≠ "a.b" ∧
    DetectionRule.init "a.b.c" "yara" "rule body" exAuthor =
      Except.ok { name := "a", type := "yara", content := "rule body",
                  author := exAuthor } := by
  refine ⟨by decide, by decide, ?_⟩
  rfl

/-- C3 amended: the produced object's display name is the filename segment
before the first period (everything from the first period on is dropped),
because the code takes index 0 of the split. -/
theorem detection_rule_display_name_first_segment (filename : List Char)
    (t content : String) (author : SObj) :
    DetectionRule.display_name filename =
      filename.takeWhile (fun c => c != dotC) ∧
    (∀ s, DetectionRule.init (String.mk filename) t content author =
        Except.ok s →
      s.name = String.mk (filename.takeWhile (fun c => c != dotC))) := by
  refine ⟨pySplit_headD dotC filename, ?_⟩
  intro s h
  unfold DetectionRule.init at h
  split at h
  · cases h
    exact congrArg String.mk (pySplit_headD dotC filename)
  · exact absurd h (by simp)

/-- C4: the FileHash algorithm is resolved purely from the string length —
64 gives SHA-256, 40 gives SHA-1, 32 gives MD5 — and any other length raises
`ConversionError` at builder construction, producing no object. -/
theorem determine_algorithm_by_length (s : String) :
    (s.length = 64 → FileHash.determine_algorithm s = Except.ok "SHA-256") ∧
    (s.length = 40 → FileHash.determine_algorithm s = Except.ok "SHA-1") ∧
    (s.length = 32 → FileHash.determine_algorithm s = Except.ok "MD5") ∧
    (s.length ≠ 64 → s.length ≠ 40 → s.length ≠ 32 →
      FileHash.determine_algorithm s =
        Except.error (FileHash.hash_error_msg s) ∧
      indicator_kind_of Builder.filehash s =
        Except.error (FileHash.hash_error_msg s)) := by
  refine ⟨?_, ?_, ?_, ?_⟩
  · intro h; simp [FileHash.determine_algorithm, h]
  · intro h; simp [FileHash.determine_algorithm, h]
  · intro h; simp [FileHash.determine_algorithm, h]
  · intro h1 h2 h3
    constructor
    · simp [FileHash.determine_algorithm, h1, h2, h3]
    · simp [indicator_kind_of, FileHash.determine_algorithm, h1, h2, h3,
        Except.map]

/-- The single-pass composition of the two escape passes: escaping
backslashes first and single quotes second amounts to mapping each original
character through `escChar` once, in the original order. -/
theorem replace_escapes (name : List Char) :
    replaceChar sqC [bslC, sqC] (replaceChar bslC [bslC, bslC] name) =
      name.flatMap escChar := by
  have hbs : ¬bslC = sqC := by decide
  induction name with
  | nil => rfl
  | cons c rest ih =>
    by_cases hb : c = bslC
    · subst hb
      simp [replaceChar, escChar, hbs, ih]
    · by_cases hq : c = sqC
      · subst hq
        simp [replaceChar, escChar, hb, ih]
      · simp [replaceChar, escChar, hb, hq, ih]

/-- C5: the URL pattern embeds the value with each original character escaped
exactly once and in its original relative order — a backslash becomes two
backslashes, a single quote becomes backslash-quote, everything else stays —
with no double-escaping, inside the url-value pattern frame. -/
theorem url_pattern_escapes_each_char_once (name : List Char) :
    URL.create_pattern name =
      ("[url:value = ".toList ++ [sqC]) ++ name.flatMap escChar ++
        [sqC, ']'] := by
  unfold URL.create_pattern
  rw [replace_escapes]

/-- C7: calling the triple-build operation a second time on the same builder
instance returns the cached previously-built triple — the whole result,
hence in particular the list of object ids, is identical — for every
indicator builder state (IP, Domain, URL, FileHash alike). -/
theorem to_stix_objects_idempotent (s : IndicatorState) :
    Indicator.to_stix_objects (Indicator.to_stix_objects s).2 =
      Indicator.to_stix_objects s ∧
    (Indicator.to_stix_objects (Indicator.to_stix_objects s).2).1.map
        (fun o => o.map SObj.id) =
      (Indicator.to_stix_objects s).1.map (fun o => o.map SObj.id) := by
  have h : Indicator.to_stix_objects (Indicator.to_stix_objects s).2 =
      Indicator.to_stix_objects s := by
    unfold Indicator.to_stix_objects
    by_cases hc : (s.stix_indicator.isSome && s.stix_observable.isSome &&
        s.stix_relationship.isSome) = true
    · simp [hc]
    · simp [hc, Indicator.create_stix_objects]
  exact ⟨h, by rw [h]⟩

/-- C8: branch order of the dispatcher — with `person_to_ta` set, every
Person entity goes to the ThreatActor builder unconditionally; otherwise an
entity whose id is in the known-threat-actor set goes to IntrusionSet exactly
when `ta_to_intrusion_set` is set and the entity is not a Person, and to
ThreatActor otherwise, whatever its declared category. -/
theorem dispatcher_threat_actor_branches (cfg : Config) (tas : List String)
    (author : SObj) (grs : String → String → Int) (e : Entity) :
    (cfg.person_to_ta = true → e.type = "Person" →
      process_entity cfg tas author grs e =
        Except.ok { objs := [ThreatActor.create_stix_objects e.name author] }) ∧
    (¬(cfg.person_to_ta = true ∧ e.type = "Person") → e.id ∈ tas →
      process_entity cfg tas author grs e =
        (if cfg.ta_to_intrusion_set = true ∧ e.type ≠ "Person" then
          Except.ok { objs := [IntrusionSet.create_stix_objects e.name author] }
        else
          Except.ok { objs := [ThreatActor.create_stix_objects e.name author] })) := by
  constructor
  · intro h1 h2
    unfold process_entity
    simp [h1, h2]
  · intro h1 h2
    have hfalse : (cfg.person_to_ta && (e.type == "Person")) = false := by
      rw [Bool.and_eq_false_iff]
      by_cases hp : cfg.person_to_ta = true
      · exact Or.inr (beq_eq_false_iff_ne.mpr (fun ht => h1 ⟨hp, ht⟩))
      · exact Or.inl (by simpa using hp)
    unfold process_entity
    rw [if_neg (by simp [hfalse]), if_pos (by simpa using h2)]
    by_cases hi : cfg.ta_to_intrusion_set = true ∧ e.type ≠ "Person"
    · rw [if_pos (by simp [hi.1, hi.2]), if_pos hi]
    · rw [if_neg ?_, if_neg hi]
      intro hb
      rw [Bool.and_eq_true] at hb
      exact hi ⟨hb.1, by simpa using hb.2⟩

/-- The warning log of the report-type loop: one warning, in order, for each
topic absent from the table. -/
theorem create_report_types_go_snd (topics : List String) :
    ∀ ret warns, (create_report_types_go ret warns topics).2 =
      warns ++ (topics.filter
        (fun t => (report_type_mapper t).isNone)).map reportTypeWarning := by
  induction topics with
  | nil => intro ret warns; simp [create_report_types_go]
  | cons t rest ih =>
    intro ret warns
    cases h : report_type_mapper t with
    | none =>
      simp [create_report_types_go, h, ih, List.filter_cons]
    | some r =>
      simp [create_report_types_go, h, ih, List.filter_cons]

/-- Membership in the accumulated report-type set: a value is collected iff
it was already in the accumulator or some topic maps to it. -/
theorem create_report_types_go_fst_mem (topics : List String) :
    ∀ ret warns r, r ∈ (create_report_types_go ret warns topics).1 ↔
      r ∈ ret ∨ ∃ t ∈ topics, report_type_mapper t = some r := by
  induction topics with
  | nil => intro ret warns r; simp [create_report_types_go]
  | cons t rest ih =>
    intro ret warns r
    cases h : report_type_mapper t with
    | none =>
      rw [create_report_types_go, h, ih]
      constructor
      · rintro (hr | ⟨u, hu, hmu⟩)
        · exact Or.inl hr
        · exact Or.inr ⟨u, List.mem_cons_of_mem t hu, hmu⟩
      · rintro (hr | ⟨u, hu, hmu⟩)
        · exact Or.inl hr
        · rcases List.mem_cons.mp hu with rfl | hu
          · rw [h] at hmu; exact absurd hmu (by simp)
          · exact Or.inr ⟨u, hu, hmu⟩
    | some v =>
      rw [create_report_types_go, h, ih]
      have hmem : r ∈ (if v ∈ ret then ret else ret ++ [v]) ↔
          r ∈ ret ∨ r = v := by
        by_cases hv : v ∈ ret
        · rw [if_pos hv]
          exact ⟨Or.inl, fun hh => hh.elim id (fun hr => hr ▸ hv)⟩
        · rw [if_neg hv]
          simp
      rw [hmem]
      constructor
      · rintro ((hr | rfl) | ⟨u, hu, hmu⟩)
        · exact Or.inl hr
        · exact Or.inr ⟨t, List.mem_cons_self t rest, h⟩
        · exact Or.inr ⟨u, List.mem_cons_of_mem t hu, hmu⟩
      · rintro (hr | ⟨u, hu, hmu⟩)
        · exact Or.inl (Or.inl hr)
        · rcases List.mem_cons.mp hu with rfl | hu
          · rw [h] at hmu
            exact Or.inl (Or.inr (Option.some.injEq _ _ ▸ hmu.symm))
          · exact Or.inr ⟨u, hu, hmu⟩

/-- The accumulated report-type set stays duplicate-free. -/
theorem create_report_types_go_fst_nodup (topics : List String) :
    ∀ ret warns, ret.Nodup → (create_report_types_go ret warns topics).1.Nodup := by
  induction topics with
  | nil => intro ret warns h; simpa [create_report_types_go] using h
  | cons t rest ih =>
    intro ret warns h
    cases hm : report_type_mapper t with
    | none => rw [create_report_types_go, hm]; exact ih _ _ h
    | some v =>
      rw [create_report_types_go, hm]
      refine ih _ _ ?_
      by_cases hv : v ∈ ret
      · rwa [if_pos hv]
      · rw [if_neg hv]
        simp only [List.Nodup, List.pairwise_append]
        exact ⟨h, List.nodup_singleton v, fun a ha b hb =>
          (List.mem_singleton.mp hb) ▸ fun hav => hv (hav ▸ ha)⟩

/-- C9: report-type derivation maps each topic through the fixed table into a
duplicate-free set, logs one warning for (and drops) each unmapped topic and
never fails; on the topics Indicator and UnknownTopic it returns exactly the
report type Indicator with exactly one warning, for UnknownTopic. -/
theorem create_report_types_spec :
    (∀ topics, (create_report_types topics).2 =
      (topics.filter
        (fun t => (report_type_mapper t).isNone)).map reportTypeWarning) ∧
    (∀ topics r, r ∈ (create_report_types topics).1 ↔
      ∃ t ∈ topics, report_type_mapper t = some r) ∧
    (∀ topics, (create_report_types topics).1.Nodup) ∧
    create_report_types ["Indicator", "UnknownTopic"] =
      (["Indicator"], [reportTypeWarning "UnknownTopic"]) := by
  refine ⟨?_, ?_, ?_, by decide⟩
  · intro topics
    simpa using create_report_types_go_snd topics [] []
  · intro topics r
    rw [create_report_types, create_report_types_go_fst_mem]
    simp
  · intro topics
    exact create_report_types_go_fst_nodup topics [] [] List.nodup_nil

/-- C10: a falsy configured risk threshold (the numeric value 0, like an
absent one) disables risk gating entirely — for every entity the loop
behaves exactly as with no threshold configured: same objects, same logs,
same API fetches, no skip. -/
theorem falsy_risk_threshold_disables_gating (cfg : Config) (tas : List String)
    (author : SObj) (grs : String → String → Int) (e : Entity)
    (h : optTruthy cfg.risk_threshold = false) :
    process_entity cfg tas author grs e =
      process_entity { cfg with risk_threshold := none } tas author grs e := by
  have h2 : optTruthy (none : Option Int) = false := rfl
  unfold process_entity
  simp only [h, h2]
  rfl

/-- Witness for C10: with the threshold configured as 0 an IP entity is
converted exactly as with no threshold configured. -/
theorem falsy_risk_threshold_disables_gating_witness :
    process_entity { risk_threshold := some 0 } [] exAuthor (fun _ _ => 77)
        { type := "IpAddress", name := "1.2.3.4", id := "e1" } =
      process_entity { risk_threshold := none } [] exAuthor (fun _ _ => 77)
        { type := "IpAddress", name := "1.2.3.4", id := "e1" } :=
  falsy_risk_threshold_disables_gating { risk_threshold := some 0 } []
    exAuthor (fun _ _ => 77) { type := "IpAddress", name := "1.2.3.4", id := "e1" }
    (by decide)
